import Mathlib

/-!
Shallow embedding of `src/sms_reader.py` (Phone Link SMS reader) and
verification of its specified properties.

The embedding models the SQLite store as explicit data (tables with named
columns and rows of SQLite values), fallible operations as `Except`/`Option`
values, and the local-timezone rendering performed by
`datetime.fromtimestamp(...).strftime(...)` as an abstract function
`render : Rat -> Option String` (it is environment dependent and can raise,
which is modelled by `none`).
-/

set_option autoImplicit false

namespace SmsReader

/-- A Python value as it can reach `format_timestamp`: `None`, an `int`,
a `str`, or an object whose `str()` itself raises (`bad`). -/
inductive PyVal where
  | vNone : PyVal
  | vInt : Int → PyVal
  | vStr : String → PyVal
  | vBad : PyVal
deriving DecidableEq

/-- Digits-only parse of a character list into a natural number. -/
def parseDigits (cs : List Char) : Option Nat :=
  if cs.isEmpty then none
  else if cs.all Char.isDigit then
    some (cs.foldl (fun acc c => acc * 10 + (c.toNat - 48)) 0)
  else none

/-- Model of the Python builtin `int(...)` applied to a string: surrounding
whitespace is ignored, an optional sign precedes the digits. -/
def parsePyInt (s : String) : Option Int :=
  let cs := ((s.data.dropWhile Char.isWhitespace).reverse.dropWhile
      Char.isWhitespace).reverse
  match cs with
  | [] => none
  | c :: rest =>
    if c = '-' then (parseDigits rest).map (fun n => -(n : Int))
    else if c = '+' then (parseDigits rest).map (fun n => (n : Int))
    else (parseDigits (c :: rest)).map (fun n => (n : Int))

/-- Model of `int(ts_raw)`: succeeds on ints and integer-shaped strings,
raises (`none`) otherwise. -/
def pyInt : PyVal → Option Int
  | PyVal.vNone => none
  | PyVal.vInt n => some n
  | PyVal.vStr s => parsePyInt s
  | PyVal.vBad => none

/-- Model of `str(ts_raw)`; `none` models an object whose `str()` raises. -/
def pyStr : PyVal → Option String
  | PyVal.vNone => some "None"
  | PyVal.vInt n => some (toString n)
  | PyVal.vStr s => some s
  | PyVal.vBad => none

/-- Lines 188-190 of the source: `if ts > 1e12: ts = ts / 1000`.  The Python
float division is modelled exactly over the rationals. -/
def normalize_ts (n : Int) : Rat :=
  if (n : Rat) > 10 ^ 12 then (n : Rat) / 1000 else (n : Rat)

/-- `format_timestamp` (source lines 182-198).  `render` stands for
`datetime.fromtimestamp(ts).strftime("%Y-%m-%d %H:%M:%S")`; `none` models a
raise inside the first `try`, which falls through to the `str(ts_raw)`
fallback, whose own failure yields `"Unknown"`. -/
def format_timestamp (render : Rat → Option String) (v : PyVal) : String :=
  match v with
  | PyVal.vNone => "Unknown"
  | _ =>
    match pyInt v with
    | some n =>
      match render (normalize_ts n) with
      | some s => s
      | none => (pyStr v).getD "Unknown"
    | none => (pyStr v).getD "Unknown"

/-- A SQLite value: `NULL`, an integer, or text. -/
inductive SqlVal where
  | null : SqlVal
  | int : Int → SqlVal
  | text : String → SqlVal
deriving DecidableEq

/-- One row of a table, as the dict produced by `dict(row)` with
`sqlite3.Row` as row factory: an association list column-name to value. -/
def Row : Type := List (String × SqlVal)

instance : DecidableEq Row :=
  inferInstanceAs (DecidableEq (List (String × SqlVal)))

/-- A table of the store: its name, its column names (in declaration order,
as `PRAGMA table_info` reports them), and its rows. -/
structure Table where
  name : String
  columns : List String
  rows : List Row
deriving DecidableEq

/-- The state of the SQLite store as `read_messages` can observe it.
`ok = false` models `sqlite3.connect`, `get_tables` or `get_columns`
raising (those calls are not wrapped in any `try` inside `read_messages`,
so such an error propagates).  `failing` lists the tables on which the
`SELECT` of line 143 raises (that raise is caught by the
`except Exception: continue` of lines 175-176). -/
structure DB where
  ok : Bool
  tables : List Table
  failing : List String
deriving DecidableEq

/-- One schema hypothesis of the `candidates` list (source lines 109-116):
`(table, id_col, sender_col, body_col, date_col, direction_col)`. -/
structure Candidate where
  table : String
  id_col : String
  sender_col : String
  body_col : String
  date_col : String
  dir_col : Option String
deriving DecidableEq

def messagesCapCand : Candidate :=
  ⟨"Messages", "RowId", "Sender", "MessageText", "Timestamp", some "MessageType"⟩

def messagesCand : Candidate :=
  ⟨"messages", "id", "address", "body", "date", some "type"⟩

def messageCand : Candidate :=
  ⟨"message", "id", "sender", "body", "timestamp", some "direction"⟩

def smsMessagesCand : Candidate :=
  ⟨"SMSMessages", "MessageId", "SenderNumber", "Body", "ReceivedTime", some "Direction"⟩

def conversationsCand : Candidate :=
  ⟨"Conversations", "id", "recipient", "snippet", "last_message_timestamp", none⟩

/-- The ordered hypothesis list of source lines 109-116. -/
def candidates : List Candidate :=
  [messagesCapCand, messagesCand, messageCand, smsMessagesCand, conversationsCand]

/-- ASCII lowering of one character; all identifiers compared by the source
are ASCII, so this models the Python `str.lower()` used on them. -/
def lowerChar (c : Char) : Char :=
  if c.isUpper then Char.ofNat (c.toNat + 32) else c

/-- Model of `str.lower()` on the ASCII table and column names. -/
def lowerStr (s : String) : String :=
  ⟨s.data.map lowerChar⟩

/-- First column of `cols` equal to `cand` up to case, returned with its
actual casing.  This is the body of the membership test plus
`get_columns(...)[cols.index(candidate.lower())]` of source line 130: testing
membership of the lowered candidate in the lowered column list and indexing
the first hit is the same as scanning for the first case-insensitive match. -/
def lookupActual (cand : String) : List String → Option String
  | [] => none
  | col :: rest =>
    if lowerStr col == lowerStr cand then some col else lookupActual cand rest

/-- `find_col` (source lines 127-131): try the candidate names in order,
return the actual-cased name of the first that matches case-insensitively. -/
def find_col (cols : List String) : List String → Option String
  | [] => none
  | cand :: rest =>
    match lookupActual cand cols with
    | some col => some col
    | none => find_col cols rest

/-- The sender-column candidate list of source line 133. -/
def senderCandidates (c : Candidate) : List String :=
  [c.sender_col, "address", "sender", "from_address", "number", "phone_number"]

/-- The body-column candidate list of source line 134. -/
def bodyCandidates (c : Candidate) : List String :=
  [c.body_col, "body", "text", "messagetext", "message_text", "content"]

/-- The date-column candidate list of source line 135. -/
def dateCandidates (c : Candidate) : List String :=
  [c.date_col, "timestamp", "date", "received_time", "created_at", "date_sent"]

/-- Dictionary lookup `row_dict.get(k)`: first entry with that exact key. -/
def rowGet (row : Row) (k : String) : Option SqlVal :=
  (row.find? (fun p => p.1 == k)).map (fun p => p.2)

/-- `str()` of a SQLite value, as Python prints it. -/
def pyStrSql : SqlVal → String
  | SqlVal.null => "None"
  | SqlVal.int n => toString n
  | SqlVal.text s => s

/-- The value a SQLite cell presents to `format_timestamp`. -/
def sqlToPy : SqlVal → SmsReader.PyVal
  | SqlVal.null => SmsReader.PyVal.vNone
  | SqlVal.int n => SmsReader.PyVal.vInt n
  | SqlVal.text s => SmsReader.PyVal.vStr s

/-- `str(row_dict.get(k, row_dict.get(k.lower(), default)))`
(source lines 149-150). -/
def getStrOr (row : Row) (k : String) (dflt : String) : String :=
  match rowGet row k with
  | some v => pyStrSql v
  | none =>
    match rowGet row (lowerStr k) with
    | some v => pyStrSql v
    | none => dflt

/-- SQLite comparison order restricted to the modelled storage classes:
`NULL` sorts before numeric values, numeric values before text. -/
def sqlLe : SqlVal → SqlVal → Bool
  | SqlVal.null, _ => true
  | SqlVal.int _, SqlVal.null => false
  | SqlVal.int a, SqlVal.int b => decide (a ≤ b)
  | SqlVal.int _, SqlVal.text _ => true
  | SqlVal.text _, SqlVal.null => false
  | SqlVal.text _, SqlVal.int _ => false
  | SqlVal.text a, SqlVal.text b => !(decide (b < a))

/-- Insert a row into a list already sorted descending by `key`. -/
def insertDescBy (key : Row → SqlVal) (r : Row) : List Row → List Row
  | [] => [r]
  | x :: xs =>
    if sqlLe (key x) (key r) then r :: x :: xs else x :: insertDescBy key r xs

/-- `ORDER BY key DESC`: sort the rows descending by the key value. -/
def sortRowsDesc (key : Row → SqlVal) : List Row → List Row
  | [] => []
  | r :: rs => insertDescBy key r (sortRowsDesc key rs)

/-- The normalized message dict built for one row (source lines 146-170). -/
structure Msg where
  sender : String
  body : String
  raw : Row
  timestamp : String
  direction : String
deriving DecidableEq

/-- Build one output message from a row (source lines 146-170). -/
def mkMsg (render : Rat → Option String) (s_col b_col : String)
    (d_col : Option String) (dir_col : Option String) (cols : List String)
    (row : Row) : Msg :=
  { sender := getStrOr row s_col "Unknown"
    body := getStrOr row b_col ""
    raw := row
    timestamp :=
      match d_col with
      | some dc =>
        match rowGet row dc with
        | some v => SmsReader.format_timestamp render (sqlToPy v)
        | none => "Unknown"
      | none => "Unknown"
    direction :=
      match dir_col with
      | none => "Inbox"
      | some dname =>
        match find_col cols [dname] with
        | some dc =>
          match rowGet row dc with
          | some v => pyStrSql v
          | none => "?"
        | none => "?" }

/-- One iteration of the candidate loop body (source lines 118-170),
up to the point where the produced messages are appended.  `none` models
every `continue`: table absent (line 119), sender or body column
unresolved (line 137), or the `SELECT` raising (lines 175-176).
`some msgs` models a successful `c.execute` + row loop producing `msgs`. -/
def tryCand (render : Rat → Option String) (db : DB) (limit : Nat)
    (cand : Candidate) : Option (List Msg) :=
  match db.tables.find? (fun t => lowerStr t.name == lowerStr cand.table) with
  | none => none
  | some actual_table =>
    let cols := actual_table.columns
    match find_col cols (senderCandidates cand),
        find_col cols (bodyCandidates cand) with
    | some sc, some bc =>
      if actual_table.name ∈ db.failing then none
      else
        let d_col := find_col cols (dateCandidates cand)
        let sorted :=
          match d_col with
          | some dc => sortRowsDesc (fun r => (rowGet r dc).getD SqlVal.null)
              actual_table.rows
          | none => actual_table.rows
        some ((sorted.take limit).map
          (mkMsg render sc bc d_col cand.dir_col cols))
    | _, _ => none

/-- The candidate loop of `read_messages` (source lines 118-176), with the
running `messages` accumulator and the `if messages: break` of
lines 172-173. -/
def readLoop (render : Rat → Option String) (db : DB) (limit : Nat) :
    List Candidate → List Msg → List Msg
  | [], messages => messages
  | cand :: rest, messages =>
    match tryCand render db limit cand with
    | none => readLoop render db limit rest messages
    | some new =>
      let messages2 := messages ++ new
      if messages2.isEmpty then readLoop render db limit rest messages2
      else messages2

/-- `read_messages` (source lines 97-179).  A `false` `ok` flag models the
unguarded `sqlite3.connect`/`get_tables`/`get_columns` calls raising, which
propagates to the caller; otherwise the candidate loop runs. -/
def read_messages (render : Rat → Option String) (db : DB) (limit : Nat) :
    Except String (List Msg) :=
  if db.ok then Except.ok (readLoop render db limit candidates [])
  else Except.error "sqlite3.OperationalError: unable to open database file"

/-- The branch of `main` on the one-shot result (source lines 339-345):
an empty list is surfaced as a message, not a crash. -/
def main_report (msgs : List Msg) : String ⊕ List Msg :=
  if msgs.isEmpty then Sum.inl "No messages found." else Sum.inr msgs

/-- `msg_id` (source lines 261-262): the derived identity key
`(sender, timestamp, body[:30])`. -/
def msg_id (m : Msg) : String × String × String :=
  (m.sender, m.timestamp, m.body.take 30)

/-- Seeding of the `seen` set (source lines 264-265). -/
def seedSeen (msgs : List Msg) : List (String × String × String) :=
  msgs.map msg_id

/-- The inner `for msg in msgs` of one poll (source lines 270-275): emit, in
fetch order, every message whose key is not in `seen`, adding each emitted
key to `seen`.  Returns the emitted messages and the grown seen set. -/
def pollOnce (seen : List (String × String × String)) :
    List Msg → List Msg × List (String × String × String)
  | [] => ([], seen)
  | m :: rest =>
    if msg_id m ∈ seen then pollOnce seen rest
    else
      ((m :: (pollOnce (msg_id m :: seen) rest).1),
        (pollOnce (msg_id m :: seen) rest).2)

/-- The `while True` polling loop of `monitor` (source lines 268-276), with
one store state per poll; the list running out models the
`KeyboardInterrupt` arriving (the only exception the loop catches, at
line 277).  A fetch error at any poll propagates as `Except.error`. -/
def monitorGo (render : Rat → Option String)
    (seen : List (String × String × String)) (emitted : List Msg) :
    List DB → Except String (List Msg)
  | [] => Except.ok emitted
  | db :: rest =>
    match read_messages render db 20 with
    | Except.error e => Except.error e
    | Except.ok msgs =>
      monitorGo render (pollOnce seen msgs).2
        (emitted ++ (pollOnce seen msgs).1) rest

/-- `monitor` (source lines 257-278): seed from a limit-50 fetch, then poll
with limit 20; returns all messages emitted as new before cancellation. -/
def monitorRun (render : Rat → Option String) (seedDb : DB)
    (polls : List DB) : Except String (List Msg) :=
  match read_messages render seedDb 50 with
  | Except.error e => Except.error e
  | Except.ok initial => monitorGo render (seedSeen initial) [] polls

/-! Concrete fixtures used by witnesses and counterexamples. -/

/-- A rendering function that always succeeds (the timestamps involved are
well inside the range `datetime.fromtimestamp` accepts). -/
def render0 : Rat → Option String := fun _ => some "TS"

/-- A rendering function that always raises. -/
def renderNone : Rat → Option String := fun _ => none

/-- A store exposing only a table named `message`, matching the third
hypothesis (and no earlier one, since table-name matching is
case-insensitive and the first two hypotheses name `Messages`/`messages`). -/
def rowMessage : Row :=
  [("id", SqlVal.int 1), ("sender", SqlVal.text "555"),
    ("body", SqlVal.text "hi"), ("timestamp", SqlVal.int 1700000000),
    ("direction", SqlVal.text "in")]

def dbMessage : DB :=
  ⟨true, [⟨"message", ["id", "sender", "body", "timestamp", "direction"],
    [rowMessage]⟩], []⟩

/-- The message `read_messages` builds from `rowMessage` under `render0`. -/
def msgMessage : Msg :=
  ⟨"555", "hi", rowMessage, "TS", "in"⟩

/-- A store whose only matching table has no body-like column, so no
hypothesis resolves. -/
def dbUnresolved : DB :=
  ⟨true, [⟨"message", ["id", "sender"], []⟩], []⟩

/-- A store with data in a matching table whose `SELECT` raises. -/
def dbQueryFail : DB :=
  ⟨true, [⟨"messages", ["address", "body"],
    [[("address", SqlVal.text "555"), ("body", SqlVal.text "hi")]]⟩],
    ["messages"]⟩

/-- A store whose connection (or catalog query) raises. -/
def dbDown : DB := ⟨false, [], []⟩

/-- A reachable store with no tables at all. -/
def dbEmptyOk : DB := ⟨true, [], []⟩

/-- Monitor-loop fixture messages with pairwise distinct identity keys. -/
def msgA : Msg := ⟨"111", "b1", [], "t1", "Inbox"⟩
def msgB : Msg := ⟨"222", "b2", [], "t2", "Inbox"⟩
def msgC : Msg := ⟨"333", "b3", [], "t3", "Inbox"⟩
def msgD : Msg := ⟨"444", "b4", [], "t4", "Inbox"⟩

/-- Two messages agreeing on sender, timestamp and the first 30 characters
of the body, with different bodies. -/
def msgLong1 : Msg :=
  ⟨"555", "aaaaaaaaaaaaaaaaaaaaaaaaaaaaaaX", [], "t", "Inbox"⟩

def msgLong2 : Msg :=
  ⟨"555", "aaaaaaaaaaaaaaaaaaaaaaaaaaaaaaY", [], "t", "Inbox"⟩

instance : DecidableEq (Except String (List Msg)) := fun a b =>
  match a, b with
  | Except.ok x, Except.ok y =>
    if h : x = y then isTrue (by rw [h]) else isFalse (by simp [h])
  | Except.error x, Except.error y =>
    if h : x = y then isTrue (by rw [h]) else isFalse (by simp [h])
  | Except.ok _, Except.error _ => isFalse (by simp)
  | Except.error _, Except.ok _ => isFalse (by simp)

/-- The skip guard of the candidate loop (source lines 119 and 137): the
hypothesis table is absent, or its sender and body columns do not both
resolve. -/
def candSkipped (db : DB) (c : Candidate) : Bool :=
  match db.tables.find? (fun t => lowerStr t.name == lowerStr c.table) with
  | none => true
  | some t =>
    !((find_col t.columns (senderCandidates c)).isSome
      && (find_col t.columns (bodyCandidates c)).isSome)

end SmsReader

set_option maxRecDepth 100000

namespace SmsReader

/-! ### Helper lemmas -/

theorem lookupActual_eq_find? (cand : String) (cols : List String) :
    lookupActual cand cols =
      cols.find? (fun col => lowerStr col == lowerStr cand) := by
  induction cols with
  | nil => rfl
  | cons c rest ih =>
    cases h : (lowerStr c == lowerStr cand) <;>
      simp [lookupActual, List.find?, h, ih]

theorem find_col_eq_findSome? (cols cands : List String) :
    find_col cols cands =
      cands.findSome? (fun cand => lookupActual cand cols) := by
  induction cands with
  | nil => rfl
  | cons c rest ih =>
    cases h : lookupActual c cols <;>
      simp [find_col, List.findSome?, h, ih]

/-! ### C2 -/

/-- C2: timestamp unit disambiguation by magnitude.  Values above the fixed
threshold `1e12` are treated as milliseconds and divided by 1000 before
conversion, so the seconds value `1700000000` and the milliseconds value
`1700000000000` normalize to the same instant and, whenever the rendering
of that instant succeeds, produce the identical output string. -/
theorem format_timestamp_unit_disambiguation (render : Rat → Option String)
    (h : (render (normalize_ts 1700000000)).isSome = true) :
    normalize_ts 1700000000 = normalize_ts 1700000000000
    ∧ format_timestamp render (PyVal.vInt 1700000000) =
        format_timestamp render (PyVal.vInt 1700000000000)
    ∧ ∀ n : Int, (n : Rat) > 10 ^ 12 → normalize_ts n = (n : Rat) / 1000 := by
  obtain ⟨s, hs⟩ := Option.isSome_iff_exists.mp h
  have hnorm : normalize_ts 1700000000 = normalize_ts 1700000000000 := by
    norm_num [normalize_ts]
  refine ⟨hnorm, ?_, ?_⟩
  · simp only [format_timestamp, pyInt, ← hnorm, hs]
  · intro n hn
    simp [normalize_ts, hn]

theorem format_timestamp_unit_disambiguation_witness :
    (render0 (normalize_ts 1700000000)).isSome = true
    ∧ (normalize_ts 1700000000 = normalize_ts 1700000000000
      ∧ format_timestamp render0 (PyVal.vInt 1700000000) =
          format_timestamp render0 (PyVal.vInt 1700000000000)
      ∧ ∀ n : Int, (n : Rat) > 10 ^ 12 → normalize_ts n = (n : Rat) / 1000) :=
  ⟨rfl, format_timestamp_unit_disambiguation render0 rfl⟩

/-! ### C9 -/

/-- C9: `format_timestamp` is total.  `None` yields the sentinel
`"Unknown"`; a non-numeric string is returned verbatim; an integer is
rendered when the conversion succeeds and falls back to its decimal string
when the conversion raises; an object whose `str()` itself raises still
yields `"Unknown"` instead of propagating. -/
theorem format_timestamp_total (render : Rat → Option String) :
    format_timestamp render PyVal.vNone = "Unknown"
    ∧ (∀ s : String, pyInt (PyVal.vStr s) = none →
        format_timestamp render (PyVal.vStr s) = s)
    ∧ (∀ (n : Int) (s : String), render (normalize_ts n) = some s →
        format_timestamp render (PyVal.vInt n) = s)
    ∧ (∀ n : Int, render (normalize_ts n) = none →
        format_timestamp render (PyVal.vInt n) = toString n)
    ∧ format_timestamp render PyVal.vBad = "Unknown" := by
  refine ⟨rfl, ?_, ?_, ?_, rfl⟩
  · intro s h
    simp only [pyInt] at h
    simp [format_timestamp, pyInt, pyStr, h]
  · intro n s h
    simp [format_timestamp, pyInt, h]
  · intro n h
    simp [format_timestamp, pyInt, pyStr, h]

theorem format_timestamp_total_witness :
    pyInt (PyVal.vStr "abc") = none
    ∧ renderNone (normalize_ts 5) = none
    ∧ format_timestamp render0 (PyVal.vStr "abc") = "abc"
    ∧ format_timestamp renderNone (PyVal.vInt 5) = toString (5 : Int) :=
  ⟨by decide, rfl, (format_timestamp_total render0).2.1 "abc" (by decide),
    (format_timestamp_total renderNone).2.2.2.1 5 rfl⟩

/-! ### C4 -/

/-- C4 (counterexample): two messages with equal sender and timestamp whose
bodies differ only after the 30th character receive the same derived
identity key, so the key does not change whenever the body changes. -/
theorem msg_id_collision :
    msg_id msgLong1 = msg_id msgLong2
    ∧ msgLong1.body ≠ msgLong2.body
    ∧ msgLong1.sender = msgLong2.sender
    ∧ msgLong1.timestamp = msgLong2.timestamp := by
  decide

/-- C4 (amended): the derived identity key `(sender, timestamp, body[:30])`
is equal for two messages exactly when their senders, timestamps and the
first 30 characters of their bodies agree; it therefore changes whenever
the sender, the timestamp, or the first 30 characters of the body
change. -/
theorem msg_id_component_characterization (m1 m2 : Msg) :
    msg_id m1 = msg_id m2 ↔
      (m1.sender = m2.sender ∧ m1.timestamp = m2.timestamp ∧
        m1.body.take 30 = m2.body.take 30) := by
  simp [msg_id, Prod.ext_iff]

/-! ### C7 -/

/-- C7 (counterexample): for the second hypothesis the code tries
`[address, address, sender, from_address, number, phone_number]`, so on a
table exposing both a `sender` and an `address` column it picks `address`,
while trying the claimed order
`[sender, address, from_address, number, phone_number]` would pick
`sender`. -/
theorem find_col_claimed_order_counterexample :
    find_col ["sender", "address"] (senderCandidates messagesCand) =
      some "address"
    ∧ find_col ["sender", "address"]
        ["sender", "address", "from_address", "number", "phone_number"] =
      some "sender"
    ∧ ("address" : String) ≠ "sender" := by
  decide

/-- C7 (amended): the sender column candidates are tried in the order: the
hypothesis-specific sender column first, then `address`, `sender`,
`from_address`, `number`, `phone_number`; the first candidate matching a
table column case-insensitively wins, and the match is returned with the
actual casing of the table column (`find?` returns the first matching
element). -/
theorem find_col_ordered_fallback (c : Candidate) (cols : List String) :
    senderCandidates c =
      [c.sender_col, "address", "sender", "from_address", "number",
        "phone_number"]
    ∧ find_col cols (senderCandidates c) =
        (senderCandidates c).findSome? (fun cand => lookupActual cand cols)
    ∧ ∀ cand : String, lookupActual cand cols =
        cols.find? (fun col => lowerStr col == lowerStr cand) :=
  ⟨rfl, find_col_eq_findSome? cols (senderCandidates c),
    fun cand => lookupActual_eq_find? cand cols⟩

/-! ### C5 -/

/-- C5 (counterexample): a store holding one matching table with one data
row whose `SELECT` raises makes `read_messages` return the empty list, not
an error: the per-candidate `except Exception: continue` swallows query
failures, so a caller cannot distinguish this from no messages. -/
theorem read_messages_swallows_query_failure :
    dbQueryFail.failing = ["messages"]
    ∧ dbQueryFail.tables.map (fun t => t.rows.length) = [1]
    ∧ read_messages render0 dbQueryFail 3 = Except.ok [] := by
  decide

/-- C5 (amended): when the store cannot be opened at all (the connection or
catalog query raises), `read_messages` propagates the error to its caller
instead of returning an empty message list. -/
theorem read_messages_propagates_connection_failure
    (render : Rat → Option String) (db : DB) (limit : Nat)
    (h : db.ok = false) :
    read_messages render db limit =
      Except.error "sqlite3.OperationalError: unable to open database file" := by
  simp [read_messages, h]

theorem read_messages_propagates_connection_failure_witness :
    dbDown.ok = false
    ∧ read_messages render0 dbDown 3 =
        Except.error "sqlite3.OperationalError: unable to open database file" :=
  ⟨rfl, read_messages_propagates_connection_failure render0 dbDown 3 rfl⟩

/-! ### Candidate-loop lemmas -/

theorem tryCand_of_skipped (render : Rat → Option String) (db : DB)
    (limit : Nat) (c : Candidate) (h : candSkipped db c = true) :
    tryCand render db limit c = none := by
  unfold candSkipped at h
  unfold tryCand
  cases hf : db.tables.find? (fun t => lowerStr t.name == lowerStr c.table) with
  | none => simp [hf]
  | some t =>
    rw [hf] at h
    cases hs : find_col t.columns (senderCandidates c) with
    | none => simp [hf, hs]
    | some sc =>
      cases hb : find_col t.columns (bodyCandidates c) with
      | none => simp [hf, hs, hb]
      | some bc => simp [hs, hb] at h

theorem readLoop_all_skip (render : Rat → Option String) (db : DB)
    (limit : Nat) :
    ∀ cands : List Candidate,
      (∀ c ∈ cands, tryCand render db limit c = none) →
      ∀ msgs : List Msg, readLoop render db limit cands msgs = msgs := by
  intro cands
  induction cands with
  | nil => intro _ msgs; rfl
  | cons c rest ih =>
    intro h msgs
    have hc : tryCand render db limit c = none := h c (List.mem_cons_self c rest)
    have hrest := fun c' hc' => h c' (List.mem_cons_of_mem c hc')
    simp [readLoop, hc, ih hrest msgs]

theorem readLoop_skips_pre (render : Rat → Option String) (db : DB)
    (limit : Nat) :
    ∀ pre rest : List Candidate,
      (∀ c ∈ pre, tryCand render db limit c = none ∨
        tryCand render db limit c = some []) →
      readLoop render db limit (pre ++ rest) [] =
        readLoop render db limit rest [] := by
  intro pre
  induction pre with
  | nil => intro rest _; rfl
  | cons c pre ih =>
    intro rest h
    have hc := h c (List.mem_cons_self c pre)
    have hrest := fun c' hc' => h c' (List.mem_cons_of_mem c hc')
    rcases hc with hc | hc <;> simp [readLoop, hc, ih rest hrest]

theorem tryCand_length_le (render : Rat → Option String) (db : DB)
    (limit : Nat) (c : Candidate) (l : List Msg)
    (h : tryCand render db limit c = some l) : l.length ≤ limit := by
  unfold tryCand at h
  cases hf : db.tables.find? (fun t => lowerStr t.name == lowerStr c.table) with
  | none => rw [hf] at h; cases h
  | some t =>
    rw [hf] at h
    dsimp only at h
    cases hs : find_col t.columns (senderCandidates c) with
    | none => rw [hs] at h; cases h
    | some sc =>
      cases hb : find_col t.columns (bodyCandidates c) with
      | none => rw [hs, hb] at h; cases h
      | some bc =>
        rw [hs, hb] at h
        dsimp only at h
        by_cases hfail : t.name ∈ db.failing
        · rw [if_pos hfail] at h; cases h
        · rw [if_neg hfail] at h
          injection h with h
          subst h
          simp only [List.length_map, List.length_take]
          exact min_le_left _ _

theorem readLoop_shape (render : Rat → Option String) (db : DB)
    (limit : Nat) :
    ∀ cands : List Candidate,
      readLoop render db limit cands [] = []
      ∨ ∃ c ∈ cands,
          tryCand render db limit c =
            some (readLoop render db limit cands []) := by
  intro cands
  induction cands with
  | nil => exact Or.inl rfl
  | cons c rest ih =>
    cases htc : tryCand render db limit c with
    | none =>
      have hstep : readLoop render db limit (c :: rest) [] =
          readLoop render db limit rest [] := by simp [readLoop, htc]
      rw [hstep]
      rcases ih with hnil | ⟨c', hc', h'⟩
      · exact Or.inl hnil
      · exact Or.inr ⟨c', List.mem_cons_of_mem c hc', h'⟩
    | some new =>
      cases new with
      | nil =>
        have hstep : readLoop render db limit (c :: rest) [] =
            readLoop render db limit rest [] := by simp [readLoop, htc]
        rw [hstep]
        rcases ih with hnil | ⟨c', hc', h'⟩
        · exact Or.inl hnil
        · exact Or.inr ⟨c', List.mem_cons_of_mem c hc', h'⟩
      | cons a as =>
        have hstep : readLoop render db limit (c :: rest) [] = a :: as := by
          simp [readLoop, htc]
        rw [hstep]
        exact Or.inr ⟨c, List.mem_cons_self c rest, by rw [htc]⟩

/-! ### C1 -/

/-- C1: schema resolution is first-match-wins.  If every hypothesis before
`c` in the ordered candidate list is skipped (absent table, unresolved
columns, raising query) or yields zero rows, and `c` yields a nonempty
message list, then `read_messages` returns exactly that list, whatever the
hypotheses after `c` would do. -/
theorem read_messages_first_match (render : Rat → Option String) (db : DB)
    (limit : Nat) (pre post : List Candidate) (c : Candidate)
    (msgs : List Msg)
    (hok : db.ok = true)
    (hcands : candidates = pre ++ c :: post)
    (hpre : ∀ c' ∈ pre, tryCand render db limit c' = none ∨
      tryCand render db limit c' = some [])
    (hc : tryCand render db limit c = some msgs)
    (hne : msgs ≠ []) :
    read_messages render db limit = Except.ok msgs := by
  rw [read_messages, if_pos hok, hcands,
    readLoop_skips_pre render db limit pre (c :: post) hpre]
  cases msgs with
  | nil => exact absurd rfl hne
  | cons a as => simp [readLoop, hc]

theorem read_messages_first_match_witness :
    dbMessage.ok = true
    ∧ candidates =
        [messagesCapCand, messagesCand] ++
          messageCand :: [smsMessagesCand, conversationsCand]
    ∧ (∀ c' ∈ [messagesCapCand, messagesCand],
        tryCand render0 dbMessage 3 c' = none ∨
          tryCand render0 dbMessage 3 c' = some [])
    ∧ tryCand render0 dbMessage 3 messageCand = some [msgMessage]
    ∧ [msgMessage] ≠ []
    ∧ read_messages render0 dbMessage 3 = Except.ok [msgMessage] :=
  ⟨rfl, rfl, by decide, by decide, by decide,
    read_messages_first_match render0 dbMessage 3
      [messagesCapCand, messagesCand] [smsMessagesCand, conversationsCand]
      messageCand [msgMessage] rfl rfl (by decide) (by decide) (by decide)⟩

/-! ### C6 -/

/-- C6: unresolved schema is not a crash.  When every hypothesis is skipped
(no hypothesis table exists, or none of the matching tables yields both a
sender and a body column), `read_messages` returns the empty list without
an error, and the consumer branch of `main` surfaces this as the
"No messages found." report instead of terminating abnormally. -/
theorem read_messages_unresolved_schema_empty (render : Rat → Option String)
    (db : DB) (limit : Nat)
    (hok : db.ok = true)
    (hskip : ∀ c ∈ candidates, candSkipped db c = true) :
    read_messages render db limit = Except.ok []
    ∧ main_report [] = Sum.inl "No messages found." := by
  constructor
  · rw [read_messages, if_pos hok,
      readLoop_all_skip render db limit candidates
        (fun c hc => tryCand_of_skipped render db limit c (hskip c hc)) []]
  · rfl

theorem read_messages_unresolved_schema_empty_witness :
    dbUnresolved.ok = true
    ∧ (∀ c ∈ candidates, candSkipped dbUnresolved c = true)
    ∧ (read_messages render0 dbUnresolved 3 = Except.ok []
      ∧ main_report [] = Sum.inl "No messages found.") :=
  ⟨rfl, by decide,
    read_messages_unresolved_schema_empty render0 dbUnresolved 3 rfl
      (by decide)⟩

/-! ### C10 -/

/-- C10: output-shape invariant of `read_messages`.  Whenever it returns a
list, the list holds at most `limit` messages, each of which is a `Msg`
record (so it carries the sender, body, timestamp and direction fields,
with sender and body of string type, by construction), and a nonempty
result is produced in its entirety by a single winning hypothesis, hence
comes from a single table. -/
theorem read_messages_output_shape (render : Rat → Option String) (db : DB)
    (limit : Nat) (msgs : List Msg)
    (h : read_messages render db limit = Except.ok msgs) :
    msgs.length ≤ limit
    ∧ (msgs = [] ∨ ∃ c ∈ candidates, tryCand render db limit c = some msgs) := by
  unfold read_messages at h
  by_cases hok : db.ok = true
  · rw [if_pos hok] at h
    injection h with h
    subst h
    rcases readLoop_shape render db limit candidates with hnil | ⟨c, hc, htc⟩
    · rw [hnil]
      exact ⟨Nat.zero_le _, Or.inl rfl⟩
    · exact ⟨tryCand_length_le render db limit c _ htc, Or.inr ⟨c, hc, htc⟩⟩
  · rw [if_neg hok] at h
    cases h

theorem read_messages_output_shape_witness :
    read_messages render0 dbMessage 1 = Except.ok [msgMessage]
    ∧ ([msgMessage].length ≤ 1
      ∧ ([msgMessage] = [] ∨
          ∃ c ∈ candidates, tryCand render0 dbMessage 1 c = some [msgMessage])) :=
  ⟨by decide, read_messages_output_shape render0 dbMessage 1 [msgMessage]
    (by decide)⟩

/-! ### Monitor-loop lemmas -/

theorem pollOnce_emits (msgs : List Msg) :
    ∀ seen : List (String × String × String),
      (msgs.map msg_id).Nodup →
      (pollOnce seen msgs).1 =
        msgs.filter (fun m => decide (msg_id m ∉ seen)) := by
  induction msgs with
  | nil => intro seen _; rfl
  | cons m rest ih =>
    intro seen h
    rw [List.map_cons, List.nodup_cons] at h
    obtain ⟨hm, hrest⟩ := h
    by_cases hmem : msg_id m ∈ seen
    · simp only [pollOnce, if_pos hmem, ih seen hrest, List.filter_cons]
      simp [hmem]
    · have hfilter :
          rest.filter (fun x => decide (msg_id x ∉ msg_id m :: seen)) =
            rest.filter (fun x => decide (msg_id x ∉ seen)) := by
        apply List.filter_congr
        intro x hx
        have hne : msg_id x ≠ msg_id m := by
          intro he
          exact hm (he ▸ List.mem_map_of_mem msg_id hx)
        simp [List.mem_cons, hne]
      simp only [pollOnce, if_neg hmem, ih (msg_id m :: seen) hrest, hfilter,
        List.filter_cons]
      rw [if_pos (by simp [hmem])]

theorem pollOnce_seen_superset (msgs : List Msg) :
    ∀ (seen : List (String × String × String))
      (k : String × String × String),
      k ∈ seen → k ∈ (pollOnce seen msgs).2 := by
  induction msgs with
  | nil => intro seen k hk; exact hk
  | cons m rest ih =>
    intro seen k hk
    by_cases hmem : msg_id m ∈ seen
    · simpa only [pollOnce, if_pos hmem] using ih seen k hk
    · simpa only [pollOnce, if_neg hmem] using
        ih (msg_id m :: seen) k (List.mem_cons_of_mem _ hk)

theorem pollOnce_seen_covers (msgs : List Msg) :
    ∀ (seen : List (String × String × String)) (m : Msg),
      m ∈ msgs → msg_id m ∈ (pollOnce seen msgs).2 := by
  induction msgs with
  | nil => intro seen m hm; cases hm
  | cons m0 rest ih =>
    intro seen m hm
    by_cases hmem : msg_id m0 ∈ seen
    · rcases List.mem_cons.mp hm with hm | hm
      · subst hm
        simpa only [pollOnce, if_pos hmem] using
          pollOnce_seen_superset rest seen (msg_id m) hmem
      · simpa only [pollOnce, if_pos hmem] using ih seen m hm
    · rcases List.mem_cons.mp hm with hm | hm
      · subst hm
        simpa only [pollOnce, if_neg hmem] using
          pollOnce_seen_superset rest (msg_id m :: seen) (msg_id m)
            (List.mem_cons_self _ _)
      · simpa only [pollOnce, if_neg hmem] using
          ih (msg_id m0 :: seen) m hm

/-! ### C3 -/

/-- C3: monitor-loop dedup.  With the seen set seeded from the identity
keys of an initial fetch, a poll over messages with pairwise distinct
identity keys emits exactly the fetched messages whose key is absent from
the seed, in fetch order, and after the poll the seen set contains every
seeded key and the key of every fetched (hence every emitted) message. -/
theorem monitor_poll_dedup (initial msgs : List Msg)
    (h : (msgs.map msg_id).Nodup) :
    (pollOnce (seedSeen initial) msgs).1 =
      msgs.filter (fun m => decide (msg_id m ∉ seedSeen initial))
    ∧ (∀ k ∈ seedSeen initial, k ∈ (pollOnce (seedSeen initial) msgs).2)
    ∧ (∀ m ∈ msgs, msg_id m ∈ (pollOnce (seedSeen initial) msgs).2) :=
  ⟨pollOnce_emits msgs (seedSeen initial) h,
    fun k hk => pollOnce_seen_superset msgs (seedSeen initial) k hk,
    fun m hm => pollOnce_seen_covers msgs (seedSeen initial) m hm⟩

theorem monitor_poll_dedup_witness :
    (([msgA, msgB, msgC, msgD].map msg_id).Nodup)
    ∧ ((pollOnce (seedSeen [msgA, msgB, msgC])
          [msgA, msgB, msgC, msgD]).1 =
        [msgA, msgB, msgC, msgD].filter
          (fun m => decide (msg_id m ∉ seedSeen [msgA, msgB, msgC]))
      ∧ (∀ k ∈ seedSeen [msgA, msgB, msgC],
          k ∈ (pollOnce (seedSeen [msgA, msgB, msgC])
            [msgA, msgB, msgC, msgD]).2)
      ∧ (∀ m ∈ [msgA, msgB, msgC, msgD],
          msg_id m ∈ (pollOnce (seedSeen [msgA, msgB, msgC])
            [msgA, msgB, msgC, msgD]).2))
    ∧ [msgA, msgB, msgC, msgD].filter
        (fun m => decide (msg_id m ∉ seedSeen [msgA, msgB, msgC])) =
      [msgD] :=
  ⟨by decide,
    monitor_poll_dedup [msgA, msgB, msgC] [msgA, msgB, msgC, msgD]
      (by decide),
    by decide⟩

/-! ### C8 -/

/-- C8 (counterexample): a poll whose fetch raises terminates the monitor
run with that error, even though the very next poll would have succeeded
and returned a new message; the loop does not retry on the next
interval. -/
theorem monitor_no_retry_counterexample :
    monitorRun render0 dbEmptyOk [dbDown, dbMessage] =
      Except.error "sqlite3.OperationalError: unable to open database file"
    ∧ read_messages render0 dbMessage 20 = Except.ok [msgMessage] := by
  decide

/-- C8 (amended): the monitor loop catches only the keyboard interrupt; if
the fetch of a poll raises, the error propagates immediately and the loop
terminates without executing any later poll, while external cancellation
(the poll list running out) ends the run cleanly with the messages emitted
so far. -/
theorem monitor_stops_on_fetch_error (render : Rat → Option String)
    (seedDb db : DB) (rest : List DB) (initial : List Msg) (e : String)
    (hseed : read_messages render seedDb 50 = Except.ok initial)
    (hfail : read_messages render db 20 = Except.error e) :
    monitorRun render seedDb (db :: rest) = Except.error e
    ∧ monitorRun render seedDb [] = Except.ok [] := by
  constructor
  · rw [monitorRun, hseed]
    simp [monitorGo, hfail]
  · rw [monitorRun, hseed]
    rfl

theorem monitor_stops_on_fetch_error_witness :
    read_messages render0 dbEmptyOk 50 = Except.ok []
    ∧ read_messages render0 dbDown 20 =
        Except.error "sqlite3.OperationalError: unable to open database file"
    ∧ (monitorRun render0 dbEmptyOk [dbDown] =
        Except.error "sqlite3.OperationalError: unable to open database file"
      ∧ monitorRun render0 dbEmptyOk [] = Except.ok []) :=
  ⟨by decide, by decide,
    monitor_stops_on_fetch_error render0 dbEmptyOk dbDown [] [] _
      (by decide) (by decide)⟩

end SmsReader
